import Mathlib

/-!
Shallow embedding of rr's `DiversionSession.cc` (the diversion execution
core): the per-step control loop `diversion_step`, the syscall
classifier `process_syscall_arch` with its live executor
`execute_syscall`, the exit-event finalizer `handle_ptrace_exit_event`,
and the session destructor.

External collaborators (the TaskState resumption/wait primitives, the kernel,
the breakpoint/watchpoint classifier, the remote-syscall injector) are
modelled as an environment `Env` supplying their observable responses,
and the step additionally returns a trace of the externally visible
actions it performed, so that ordering and suppression properties can be
stated.
-/

/-- Architecture-specific syscall numbers consumed by the classifier
(`Arch::ioctl`, `Arch::ipc`, `Arch::kill`, ... in the source); each
supported instruction-set architecture supplies its own constants. -/
structure Arch where
  ioctl : Int
  ipc : Int
  kill : Int
  rt_sigqueueinfo : Int
  rt_tgsigqueueinfo : Int
  tgkill : Int
  tkill : Int
deriving DecidableEq, Repr

/-- The fixed blacklist of the `switch` in `process_syscall_arch`:
`ipc`, `kill`, `rt_sigqueueinfo`, `rt_tgsigqueueinfo`, `tgkill`, `tkill`. -/
def Arch.suppressed (a : Arch) : List Int :=
  [a.ipc, a.kill, a.rt_sigqueueinfo, a.rt_tgsigqueueinfo, a.tgkill, a.tkill]

/-- A supported architecture assigns the ioctl syscall a number distinct
from every suppressed syscall number (true of every real syscall table:
syscall numbers are distinct within one architecture). -/
def Arch.wf (a : Arch) : Prop := a.ioctl ∉ a.suppressed

instance (a : Arch) : Decidable a.wf := by
  unfold Arch.wf; infer_instance

/-- The register slots of a task that this core reads or writes:
the original-syscall number slot, the six syscall argument registers,
and the syscall-result register. -/
structure Registers where
  original_syscallno : Int
  arg1 : Int
  arg2 : Int
  arg3 : Int
  arg4 : Int
  arg5 : Int
  arg6 : Int
  syscall_result : Int
deriving DecidableEq, Repr

/-- The `PTRACE_EVENT_EXIT` ptrace-event classification ("process
exited"); a value of 0 means no ptrace event. -/
def PTRACE_EVENT_EXIT : Int := 6

/-- The slice of the external `TaskState` entity that this core reads or
mutates: architecture, registers, the last observed ptrace event and
stop signal, presence of the preload globals, the two process-visible
diversion flags, the emulated-syscall bookkeeping bit, and the
`is_desched_event_syscall` predicate (an externally computed property of
the task's current syscall, modelled as a per-step field). -/
structure TaskState where
  arch : Arch
  regs : Registers
  ptraceEvent : Int
  stopSig : Int
  preloadGlobals : Bool
  inDiversion : Bool
  syscallbufLocked : Bool
  emulatedSyscallFinished : Bool
  deschedEventSyscall : Bool
deriving DecidableEq, Repr

/-- `ResumeRequest` values used by this core. -/
inductive ResumeMode where
  | RESUME_SYSEMU
  | RESUME_SYSEMU_SINGLESTEP
deriving DecidableEq, Repr

/-- Tick budget passed to `resume_execution`; this core only ever uses
the unlimited budget. -/
inductive TicksRequest where
  | RESUME_UNLIMITED_TICKS
deriving DecidableEq, Repr

/-- The `RunCommand` input of one step (the full enum of the owning
system: continue, single-step, and the fast-forward single-step variant
that is illegal for this core). -/
inductive RunCommand where
  | RUN_CONTINUE
  | RUN_SINGLESTEP
  | RUN_SINGLESTEP_FAST_FORWARD
deriving DecidableEq, Repr

/-- Break-status record of a diversion result: breakpoint hit,
watchpoints hit, single-step completed. -/
structure BreakStatus where
  breakpoint_hit : Bool
  watchpoints_hit : List Nat
  singlestep_complete : Bool
deriving DecidableEq, Repr

/-- A default-constructed `BreakStatus` (what `DiversionResult result;`
starts from). -/
def BreakStatus.init : BreakStatus :=
  { breakpoint_hit := false, watchpoints_hit := [], singlestep_complete := false }

/-- Status tag of a diversion step. -/
inductive DiversionStatus where
  | DIVERSION_CONTINUE
  | DIVERSION_EXITED
deriving DecidableEq, Repr

/-- `DiversionSession::DiversionResult`. -/
structure DiversionResult where
  status : DiversionStatus
  break_status : BreakStatus
deriving DecidableEq, Repr

/-- Externally visible actions a step performs, in order: writing the
in-diversion flag into the tracee's preload globals, locking the
syscall buffer, resuming the tracee, the emulated-syscall bookkeeping,
issuing a syscall to the kernel through the remote-syscall executor,
logging a suppressed syscall, and the three exit-finalization actions
(`did_kill`, `detach`, freeing the task). -/
inductive Event where
  | writeInDiversion
  | lockSyscallbuf
  | resume (mode : ResumeMode) (ticks : TicksRequest) (sig : Int)
  | finishEmulated
  | kernelSyscall (no a1 a2 a3 a4 a5 a6 : Int)
  | logSuppressed (no : Int)
  | didKill
  | detach
  | freeTask
deriving DecidableEq, Repr

/-- Events belonging to the syscall classifier/executor path. -/
def Event.syscallPath : Event → Bool
  | .finishEmulated => true
  | .kernelSyscall _ _ _ _ _ _ _ => true
  | .logSuppressed _ => true
  | _ => false

/-- Responses of the external collaborators during one step: the
session readiness flag checked by `assert_fully_initialized`, the
ptrace event and stop signal the task exhibits after the blocking
resume-and-wait, the breakpoint/watchpoint trap classifier
`diagnose_debugger_trap`, the watchpoints flagged by
`check_for_watchpoint_changes`, and the kernel's return value for a
remotely issued syscall. -/
structure Env where
  fullyInitialized : Bool
  resumeEvent : Int
  resumeStopSig : Int
  diagnose : TaskState → RunCommand → BreakStatus
  watchpointChanges : List Nat
  kernel : Int → Int → Int → Int → Int → Int → Int → Int

/-- Modelled from the spec: `check_for_watchpoint_changes` (an external
collaborator, outside this excerpt) runs the watchpoint-change check and
may flag watchpoints hit in the given break-status; it touches nothing
else in the break-status. -/
def check_for_watchpoint_changes (env : Env) (bs : BreakStatus) : BreakStatus :=
  { bs with watchpoints_hit := env.watchpointChanges }

/-- Modelled from the spec: `TaskState::finish_emulated_syscall` (an external
Task primitive) marks the emulated-syscall bookkeeping finished on the
task. -/
def TaskState.finish_emulated_syscall (t : TaskState) : TaskState × List Event :=
  ({ t with emulatedSyscallFinished := true }, [Event.finishEmulated])

/-- `finish_emulated_syscall_with_ret`: finish the emulated syscall,
then write `ret` into the syscall-result register slot of the task's
registers. -/
def finish_emulated_syscall_with_ret (t : TaskState) (ret : Int) : TaskState × List Event :=
  let p := t.finish_emulated_syscall
  let r := p.1.regs
  ({ p.1 with regs := { r with syscall_result := ret } }, p.2)

/-- `execute_syscall`: finish the emulated syscall, then, inside a
scoped `AutoRemoteSyscalls` injection context, issue the original
syscall number with the six argument registers as captured; the
injector's teardown restores the saved registers with the kernel's
return value patched into the syscall-result slot (the source writes the
result into the saved register copy before the scope's destructor
restores it), so the net effect on the task's registers is exactly
`syscall_result := kernel return value`. -/
def execute_syscall (env : Env) (t : TaskState) : TaskState × List Event :=
  let p := t.finish_emulated_syscall
  let saved := p.1.regs
  let ret := env.kernel saved.original_syscallno saved.arg1 saved.arg2 saved.arg3
      saved.arg4 saved.arg5 saved.arg6
  ({ p.1 with regs := { saved with syscall_result := ret } },
   p.2 ++ [Event.kernelSyscall saved.original_syscallno saved.arg1 saved.arg2
      saved.arg3 saved.arg4 saved.arg5 saved.arg6])

/-- `process_syscall_arch<Arch>`: the per-architecture syscall
classifier. Desched-control ioctl → no-op with forced 0 return;
blacklisted syscalls → log and nothing else; everything else → execute
live. -/
def process_syscall_arch (arch : Arch) (env : Env) (t : TaskState) (syscallno : Int) :
    TaskState × List Event :=
  if syscallno = arch.ioctl ∧ t.deschedEventSyscall = true then
    finish_emulated_syscall_with_ret t 0
  else if syscallno ∈ arch.suppressed then
    (t, [Event.logSuppressed syscallno])
  else
    execute_syscall env t

/-- `process_syscall`: `RR_ARCH_FUNCTION` dispatch of the classifier on
the task's own architecture. -/
def process_syscall (env : Env) (t : TaskState) (syscallno : Int) : TaskState × List Event :=
  process_syscall_arch t.arch env t syscallno

/-- `handle_ptrace_exit_event`: notify the task it was killed, detach,
then free the task. The task identity is gone afterwards, so only the
trace of the three actions remains. -/
def handle_ptrace_exit_event : List Event :=
  [Event.didKill, Event.detach, Event.freeTask]

/-- Writing the diversion flags before the resume: set the in-diversion
flag in the preload globals when they are present, then lock the
syscall buffer. -/
def apply_diversion_flags (t : TaskState) : TaskState × List Event :=
  let p :=
    if t.preloadGlobals = true then
      ({ t with inDiversion := true }, [Event.writeInDiversion])
    else (t, ([] : List Event))
  ({ p.1 with syscallbufLocked := true }, p.2 ++ [Event.lockSyscallbuf])

/-- The task as observed after the blocking resume-and-wait: diversion
flags applied, and the ptrace event and stop signal replaced by what the
wait reported. -/
def after_resume (env : Env) (t : TaskState) : TaskState :=
  { (apply_diversion_flags t).1 with
      ptraceEvent := env.resumeEvent, stopSig := env.resumeStopSig }

/-- Outcome of one `diversion_step` call: a normal return carrying the
`DiversionResult` and the surviving task (`none` when the task was
freed by exit finalization), a `FATAL`/`DEBUG_ASSERT` abort on an
illegal run command, or an `ASSERT`/assertion abort. -/
inductive StepOutcome where
  | ok (res : DiversionResult) (t : Option TaskState)
  | fatalIllegalCommand
  | fatalAssert
deriving DecidableEq, Repr

/-- The `ResumeRequest` the `switch (command)` picks: single-stepping
syscall emulation for `RUN_SINGLESTEP`, plain syscall emulation for
`RUN_CONTINUE`. -/
def resume_mode (command : RunCommand) : ResumeMode :=
  if command = RunCommand.RUN_SINGLESTEP then ResumeMode.RESUME_SYSEMU_SINGLESTEP
  else ResumeMode.RESUME_SYSEMU

/-- The actions performed between the initial exit check and the
post-resume exit check: the diversion-flag writes followed by the
resume-and-wait with an unlimited tick budget, delivering
`signal_to_deliver`. -/
def resume_events (t : TaskState) (command : RunCommand) (sig : Int) : List Event :=
  (apply_diversion_flags t).2 ++
    [Event.resume (resume_mode command) TicksRequest.RESUME_UNLIMITED_TICKS sig]

/-- `DiversionSession::diversion_step`: advance the task until a signal
is pending, a syscall entry is reached and processed, or the task
exits; returns the outcome together with the trace of externally
visible actions. Control flow mirrors the source: the
`DEBUG_ASSERT` on the fast-forward command, `assert_fully_initialized`,
the pre-resume exit check, the diversion-flag writes and the resume,
the post-resume exit check, the pending-signal branch with the
`ASSERT` on `singlestep_complete`, and finally the syscall dispatch
followed by the watchpoint-change check. -/
def diversion_step (env : Env) (t : TaskState) (command : RunCommand)
    (signal_to_deliver : Int) : StepOutcome × List Event :=
  if command = RunCommand.RUN_SINGLESTEP_FAST_FORWARD then
    (StepOutcome.fatalIllegalCommand, [])
  else if env.fullyInitialized = false then
    (StepOutcome.fatalAssert, [])
  else if t.ptraceEvent = PTRACE_EVENT_EXIT then
    (StepOutcome.ok { status := .DIVERSION_EXITED, break_status := .init } none,
     handle_ptrace_exit_event)
  else if (after_resume env t).ptraceEvent = PTRACE_EVENT_EXIT then
    (StepOutcome.ok { status := .DIVERSION_EXITED, break_status := .init } none,
     resume_events t command signal_to_deliver ++ handle_ptrace_exit_event)
  else if (after_resume env t).stopSig ≠ 0 then
    if (env.diagnose (after_resume env t) command).singlestep_complete = true ∧
        command ≠ RunCommand.RUN_SINGLESTEP then
      (StepOutcome.fatalAssert, resume_events t command signal_to_deliver)
    else
      (StepOutcome.ok
        { status := .DIVERSION_CONTINUE,
          break_status := env.diagnose (after_resume env t) command }
        (some (after_resume env t)),
       resume_events t command signal_to_deliver)
  else
    (StepOutcome.ok
      { status := .DIVERSION_CONTINUE,
        break_status := check_for_watchpoint_changes env .init }
      (some (process_syscall env (after_resume env t)
          (after_resume env t).regs.original_syscallno).1),
     resume_events t command signal_to_deliver ++
       (process_syscall env (after_resume env t)
          (after_resume env t).regs.original_syscallno).2)

/-- The session state the destructor inspects: owned tasks, owned
address spaces ("vms"), and the emulated filesystem's live-entry
count. -/
structure SessionState where
  tasks : List Nat
  vms : List Nat
  emuFsSize : Nat
deriving DecidableEq, Repr

/-- Actions of the destructor: forcibly terminating one owned task, and
the emptiness check over (task count, vm count, emu-fs entry count)
performed by the two `DEBUG_ASSERT`s. -/
inductive DtorEvent where
  | killTask (id : Nat)
  | checkEmptiness (ntasks nvms nfs : Nat)
deriving DecidableEq, Repr

/-- Modelled from the spec: `kill_all_tasks` (Session machinery outside
this excerpt) forcibly terminates every task the session still owns;
destroying a task releases it from the session's task set, and dropping
the last task of an address space releases that address space, so both
sets are empty afterwards. The emulated filesystem is untouched. -/
def kill_all_tasks (s : SessionState) : SessionState × List DtorEvent :=
  ({ s with tasks := [], vms := [] }, s.tasks.map DtorEvent.killTask)

/-- Outcome of the destructor: normal completion, or a
`DEBUG_ASSERT` failure (a programming-error-level abort). -/
inductive DtorOutcome where
  | ok
  | assertFail
deriving DecidableEq, Repr

/-- `DiversionSession::~DiversionSession`: first `kill_all_tasks`, then
`DEBUG_ASSERT(tasks().size() == 0 && vms().size() == 0)` and
`DEBUG_ASSERT(emu_fs->size() == 0)`. -/
def destroy_session (s : SessionState) : DtorOutcome × List DtorEvent :=
  let p := kill_all_tasks s
  let outcome :=
    if p.1.tasks.length = 0 ∧ p.1.vms.length = 0 then
      if p.1.emuFsSize = 0 then DtorOutcome.ok else DtorOutcome.assertFail
    else DtorOutcome.assertFail
  (outcome, p.2 ++ [DtorEvent.checkEmptiness p.1.tasks.length p.1.vms.length p.1.emuFsSize])

/-! Concrete fixtures used by the witness theorems: a sample
architecture (the x86-64 numbers for the named syscalls; `ipc` does not
exist on x86-64, rr assigns such holes a distinct placeholder, here
117), a sample register file, task and environment. -/

def archX : Arch :=
  { ioctl := 16, ipc := 117, kill := 62, rt_sigqueueinfo := 129,
    rt_tgsigqueueinfo := 297, tgkill := 234, tkill := 200 }

def regs0 : Registers :=
  { original_syscallno := 1, arg1 := 10, arg2 := 20, arg3 := 30,
    arg4 := 40, arg5 := 50, arg6 := 60, syscall_result := 0 }

def task0 : TaskState :=
  { arch := archX, regs := regs0, ptraceEvent := 0, stopSig := 0,
    preloadGlobals := true, inDiversion := false, syscallbufLocked := false,
    emulatedSyscallFinished := false, deschedEventSyscall := false }

def env0 : Env :=
  { fullyInitialized := true, resumeEvent := 0, resumeStopSig := 0,
    diagnose := fun _ _ => BreakStatus.init, watchpointChanges := [],
    kernel := fun no a1 _ _ _ _ _ => no + a1 }

/-! Helper lemmas shared between the claim theorems. -/

theorem after_resume_ptraceEvent (env : Env) (t : TaskState) :
    (after_resume env t).ptraceEvent = env.resumeEvent := rfl

theorem after_resume_stopSig (env : Env) (t : TaskState) :
    (after_resume env t).stopSig = env.resumeStopSig := rfl

theorem after_resume_regs (env : Env) (t : TaskState) :
    (after_resume env t).regs = t.regs := by
  cases hp : t.preloadGlobals <;>
    simp [after_resume, apply_diversion_flags, hp]

theorem after_resume_locked (env : Env) (t : TaskState) :
    (after_resume env t).syscallbufLocked = true := rfl

theorem after_resume_inDiversion (env : Env) (t : TaskState)
    (hp : t.preloadGlobals = true) : (after_resume env t).inDiversion = true := by
  simp [after_resume, apply_diversion_flags, hp]

theorem resume_events_eq (t : TaskState) (command : RunCommand) (sig : Int) :
    resume_events t command sig =
      ((if t.preloadGlobals = true then [Event.writeInDiversion] else []) ++
        [Event.lockSyscallbuf]) ++
      [Event.resume (resume_mode command) TicksRequest.RESUME_UNLIMITED_TICKS sig] := by
  cases hp : t.preloadGlobals <;>
    simp [resume_events, apply_diversion_flags, hp]

theorem resume_events_not_syscallPath (t : TaskState) (command : RunCommand)
    (sig : Int) : ∀ e ∈ resume_events t command sig, e.syscallPath = false := by
  intro e he
  rw [resume_events_eq] at he
  cases hp : t.preloadGlobals
  · rw [hp] at he
    simp at he
    rcases he with rfl | rfl <;> rfl
  · rw [hp] at he
    simp at he
    rcases he with rfl | rfl | rfl <;> rfl

theorem resume_events_no_finalize (t : TaskState) (command : RunCommand)
    (sig : Int) :
    Event.didKill ∉ resume_events t command sig ∧
    Event.detach ∉ resume_events t command sig ∧
    Event.freeTask ∉ resume_events t command sig := by
  rw [resume_events_eq]
  cases hp : t.preloadGlobals <;> simp

theorem process_syscall_arch_preserves_flags (arch : Arch) (env : Env)
    (t : TaskState) (no : Int) :
    (process_syscall_arch arch env t no).1.syscallbufLocked = t.syscallbufLocked ∧
    (process_syscall_arch arch env t no).1.inDiversion = t.inDiversion := by
  unfold process_syscall_arch finish_emulated_syscall_with_ret execute_syscall
    TaskState.finish_emulated_syscall
  split_ifs <;> simp

/-- C2: for every architecture with a well-formed syscall table and
every syscall number in the suppressed set, the classifier returns the
task unchanged (registers in their post-entry pre-result state, the
emulated syscall not marked finished) and its trace is exactly one
log action: the syscall is never issued to the kernel via the
remote-syscall executor. -/
theorem suppressed_syscalls_never_executed (arch : Arch) (env : Env)
    (t : TaskState) (no : Int) (hwf : arch.wf) (hmem : no ∈ arch.suppressed) :
    process_syscall_arch arch env t no = (t, [Event.logSuppressed no]) ∧
    (process_syscall_arch arch env t no).1.regs = t.regs ∧
    (process_syscall_arch arch env t no).1.emulatedSyscallFinished =
      t.emulatedSyscallFinished ∧
    ∀ e ∈ (process_syscall_arch arch env t no).2,
      ∀ n a1 a2 a3 a4 a5 a6, e ≠ Event.kernelSyscall n a1 a2 a3 a4 a5 a6 := by
  have hne : ¬(no = arch.ioctl ∧ t.deschedEventSyscall = true) := by
    rintro ⟨h, -⟩
    exact hwf (h ▸ hmem)
  have h : process_syscall_arch arch env t no = (t, [Event.logSuppressed no]) := by
    unfold process_syscall_arch
    rw [if_neg hne, if_pos hmem]
  refine ⟨h, by rw [h], by rw [h], ?_⟩
  rw [h]
  intro e he n a1 a2 a3 a4 a5 a6
  simp at he
  simp [he]

/-- C2 witness: `kill` on the sample architecture is suppressed and
leaves the task untouched. -/
theorem suppressed_syscalls_never_executed_witness :
    archX.wf ∧ archX.kill ∈ archX.suppressed ∧
    process_syscall_arch archX env0 task0 archX.kill =
      (task0, [Event.logSuppressed archX.kill]) :=
  ⟨by decide, by decide,
   (suppressed_syscalls_never_executed archX env0 task0 archX.kill
     (by decide) (by decide)).1⟩

/-- C3: every syscall that is neither the desched-control ioctl (as
recognized on this task) nor in the suppressed set is executed live:
the classifier equals `execute_syscall`, the emulated-syscall
bookkeeping is finished first and the original syscall number is then
issued with the six argument registers exactly as captured at entry,
and the post-step registers equal the entry registers with the
syscall-result slot set to the kernel's return value. -/
theorem other_syscalls_executed_live (arch : Arch) (env : Env) (t : TaskState)
    (no : Int) (hio : ¬(no = arch.ioctl ∧ t.deschedEventSyscall = true))
    (hmem : no ∉ arch.suppressed) :
    process_syscall_arch arch env t no = execute_syscall env t ∧
    (process_syscall_arch arch env t no).1 =
      { t with emulatedSyscallFinished := true,
               regs := { t.regs with syscall_result :=
                 (env.kernel t.regs.original_syscallno t.regs.arg1 t.regs.arg2
                   t.regs.arg3 t.regs.arg4 t.regs.arg5 t.regs.arg6) } } ∧
    (process_syscall_arch arch env t no).2 =
      [Event.finishEmulated,
       Event.kernelSyscall t.regs.original_syscallno t.regs.arg1 t.regs.arg2
         t.regs.arg3 t.regs.arg4 t.regs.arg5 t.regs.arg6] := by
  have h : process_syscall_arch arch env t no = execute_syscall env t := by
    unfold process_syscall_arch
    rw [if_neg hio, if_neg hmem]
  refine ⟨h, ?_, ?_⟩ <;>
    rw [h] <;> simp [execute_syscall, TaskState.finish_emulated_syscall]

/-- C3 witness: syscall number 1 (`write` on the sample architecture)
is executed live and its result register receives the kernel's return
value. -/
theorem other_syscalls_executed_live_witness :
    ¬((1 : Int) = archX.ioctl ∧ task0.deschedEventSyscall = true) ∧
    (1 : Int) ∉ archX.suppressed ∧
    (process_syscall_arch archX env0 task0 1).1.regs.syscall_result = 11 :=
  ⟨by decide, by decide, by
    rw [(other_syscalls_executed_live archX env0 task0 1 (by decide)
      (by decide)).2.1]
    rfl⟩

/-- C4: a syscall whose number equals the architecture's ioctl number,
on a task whose desched-event predicate holds, is not executed: the
emulated syscall is marked finished and its return value is forced to
exactly 0, whatever the argument registers hold, and no kernel syscall
is issued. -/
theorem desched_ioctl_forced_zero (arch : Arch) (env : Env) (t : TaskState)
    (hd : t.deschedEventSyscall = true) :
    process_syscall_arch arch env t arch.ioctl =
      finish_emulated_syscall_with_ret t 0 ∧
    (process_syscall_arch arch env t arch.ioctl).1.regs.syscall_result = 0 ∧
    (process_syscall_arch arch env t arch.ioctl).1.emulatedSyscallFinished = true ∧
    ∀ e ∈ (process_syscall_arch arch env t arch.ioctl).2,
      ∀ n a1 a2 a3 a4 a5 a6, e ≠ Event.kernelSyscall n a1 a2 a3 a4 a5 a6 := by
  have h : process_syscall_arch arch env t arch.ioctl =
      finish_emulated_syscall_with_ret t 0 := by
    unfold process_syscall_arch
    rw [if_pos ⟨rfl, hd⟩]
  refine ⟨h, ?_, ?_, ?_⟩ <;> rw [h] <;>
    simp [finish_emulated_syscall_with_ret, TaskState.finish_emulated_syscall]

/-- C4 witness: the desched ioctl on the sample task yields result 0
with the emulated syscall finished. -/
theorem desched_ioctl_forced_zero_witness :
    ({ task0 with deschedEventSyscall := true } : TaskState).deschedEventSyscall
      = true ∧
    (process_syscall_arch archX env0 { task0 with deschedEventSyscall := true }
      archX.ioctl).1.regs.syscall_result = 0 :=
  ⟨rfl, (desched_ioctl_forced_zero archX env0
    { task0 with deschedEventSyscall := true } rfl).2.1⟩

/-- C10: a syscall whose number equals the architecture's ioctl number
but on a task whose desched-event predicate does not hold is not given
the forced-zero treatment: on a well-formed syscall table ioctl is not
suppressed, so it is executed live like any other syscall, issuing it
to the kernel. -/
theorem non_desched_ioctl_executed_live (arch : Arch) (env : Env) (t : TaskState)
    (hwf : arch.wf) (hd : t.deschedEventSyscall = false) :
    process_syscall_arch arch env t arch.ioctl = execute_syscall env t ∧
    Event.kernelSyscall t.regs.original_syscallno t.regs.arg1 t.regs.arg2
        t.regs.arg3 t.regs.arg4 t.regs.arg5 t.regs.arg6 ∈
      (process_syscall_arch arch env t arch.ioctl).2 := by
  have hio : ¬(arch.ioctl = arch.ioctl ∧ t.deschedEventSyscall = true) := by
    rintro ⟨-, h⟩
    rw [hd] at h
    exact Bool.false_ne_true h
  have h := other_syscalls_executed_live arch env t arch.ioctl hio hwf
  exact ⟨h.1, by rw [h.2.2]; simp⟩

/-- C10 witness: a non-desched ioctl on the sample architecture is
executed live. -/
theorem non_desched_ioctl_executed_live_witness :
    archX.wf ∧ task0.deschedEventSyscall = false ∧
    process_syscall_arch archX env0 task0 archX.ioctl =
      execute_syscall env0 task0 :=
  ⟨by decide, rfl,
   (non_desched_ioctl_executed_live archX env0 task0 (by decide) rfl).1⟩

/-- C1: in a step that resumes the tracee (legal command, session
initialized, no exit observed before or after the resume, and a trap
classification respecting the single-step invariant): if a stop signal
is pending after the resume, the step stores the external trap
classification in the result's break-status and returns CONTINUE with a
trace free of syscall-classifier/executor actions; otherwise it
dispatches the classifier on the task's original-syscall register slot,
runs the watchpoint-change check on the break-status, and returns
CONTINUE. -/
theorem step_signal_or_syscall_dispatch (env : Env) (t : TaskState)
    (command : RunCommand) (sig : Int)
    (hcmd : command ≠ RunCommand.RUN_SINGLESTEP_FAST_FORWARD)
    (hinit : env.fullyInitialized = true)
    (hpre : t.ptraceEvent ≠ PTRACE_EVENT_EXIT)
    (hpost : env.resumeEvent ≠ PTRACE_EVENT_EXIT)
    (hassert : ¬((env.diagnose (after_resume env t) command).singlestep_complete
        = true ∧ command ≠ RunCommand.RUN_SINGLESTEP)) :
    (env.resumeStopSig ≠ 0 →
      diversion_step env t command sig =
        (StepOutcome.ok
          { status := .DIVERSION_CONTINUE,
            break_status := env.diagnose (after_resume env t) command }
          (some (after_resume env t)),
         resume_events t command sig) ∧
      ∀ e ∈ (diversion_step env t command sig).2, e.syscallPath = false) ∧
    (env.resumeStopSig = 0 →
      diversion_step env t command sig =
        (StepOutcome.ok
          { status := .DIVERSION_CONTINUE,
            break_status := check_for_watchpoint_changes env BreakStatus.init }
          (some (process_syscall env (after_resume env t)
              (after_resume env t).regs.original_syscallno).1),
         resume_events t command sig ++
           (process_syscall env (after_resume env t)
              (after_resume env t).regs.original_syscallno).2)) := by
  have hpost1 : ¬((after_resume env t).ptraceEvent = PTRACE_EVENT_EXIT) := by
    rw [after_resume_ptraceEvent]
    exact hpost
  constructor
  · intro hsig
    have hsig1 : (after_resume env t).stopSig ≠ 0 := by
      rw [after_resume_stopSig]
      exact hsig
    have hstep : diversion_step env t command sig =
        (StepOutcome.ok
          { status := .DIVERSION_CONTINUE,
            break_status := env.diagnose (after_resume env t) command }
          (some (after_resume env t)),
         resume_events t command sig) := by
      unfold diversion_step
      rw [if_neg hcmd, if_neg (by simp [hinit]), if_neg hpre, if_neg hpost1,
        if_pos hsig1, if_neg hassert]
    refine ⟨hstep, ?_⟩
    rw [hstep]
    exact resume_events_not_syscallPath t command sig
  · intro hsig
    have hsig1 : ¬((after_resume env t).stopSig ≠ 0) := by
      rw [after_resume_stopSig]
      exact not_not_intro hsig
    unfold diversion_step
    rw [if_neg hcmd, if_neg (by simp [hinit]), if_neg hpre, if_neg hpost1,
      if_neg hsig1]

/-- C1 witness: the sample environment reports no pending signal, so
the step takes the syscall path and returns CONTINUE. -/
theorem step_signal_or_syscall_dispatch_witness :
    env0.resumeStopSig = 0 ∧
    diversion_step env0 task0 RunCommand.RUN_CONTINUE 0 =
      (StepOutcome.ok
        { status := .DIVERSION_CONTINUE,
          break_status := check_for_watchpoint_changes env0 BreakStatus.init }
        (some (process_syscall env0 (after_resume env0 task0)
            (after_resume env0 task0).regs.original_syscallno).1),
       resume_events task0 RunCommand.RUN_CONTINUE 0 ++
         (process_syscall env0 (after_resume env0 task0)
            (after_resume env0 task0).regs.original_syscallno).2) :=
  ⟨rfl, (step_signal_or_syscall_dispatch env0 task0 RunCommand.RUN_CONTINUE 0
    (by decide) rfl (by decide) (by decide) (by decide)).2 rfl⟩

/-- C5: if the task's ptrace event is "process exited" at the initial
check or at the re-check right after resuming, the step returns EXITED
with the task freed, and each of the three exit-finalization actions
(kill notification, detach, free) appears exactly once in the trace. -/
theorem step_exit_finalized_once (env : Env) (t : TaskState)
    (command : RunCommand) (sig : Int)
    (hcmd : command ≠ RunCommand.RUN_SINGLESTEP_FAST_FORWARD)
    (hinit : env.fullyInitialized = true)
    (hexit : t.ptraceEvent = PTRACE_EVENT_EXIT ∨
      env.resumeEvent = PTRACE_EVENT_EXIT) :
    (diversion_step env t command sig).1 =
      StepOutcome.ok { status := .DIVERSION_EXITED, break_status := .init } none ∧
    (diversion_step env t command sig).2.count Event.didKill = 1 ∧
    (diversion_step env t command sig).2.count Event.detach = 1 ∧
    (diversion_step env t command sig).2.count Event.freeTask = 1 := by
  by_cases hpre : t.ptraceEvent = PTRACE_EVENT_EXIT
  · have hstep : diversion_step env t command sig =
        (StepOutcome.ok { status := .DIVERSION_EXITED, break_status := .init } none,
         handle_ptrace_exit_event) := by
      unfold diversion_step
      rw [if_neg hcmd, if_neg (by simp [hinit]), if_pos hpre]
    rw [hstep]
    exact ⟨rfl, by decide, by decide, by decide⟩
  · have hpost : env.resumeEvent = PTRACE_EVENT_EXIT := hexit.resolve_left hpre
    have hpost1 : (after_resume env t).ptraceEvent = PTRACE_EVENT_EXIT := by
      rw [after_resume_ptraceEvent]
      exact hpost
    have hstep : diversion_step env t command sig =
        (StepOutcome.ok { status := .DIVERSION_EXITED, break_status := .init } none,
         resume_events t command sig ++ handle_ptrace_exit_event) := by
      unfold diversion_step
      rw [if_neg hcmd, if_neg (by simp [hinit]), if_neg hpre, if_pos hpost1]
    rw [hstep]
    have hfin := resume_events_no_finalize t command sig
    refine ⟨rfl, ?_, ?_, ?_⟩
    · rw [List.count_append, List.count_eq_zero_of_not_mem hfin.1]
      decide
    · rw [List.count_append, List.count_eq_zero_of_not_mem hfin.2.1]
      decide
    · rw [List.count_append, List.count_eq_zero_of_not_mem hfin.2.2]
      decide

/-- C5 witness: a task already in the exited ptrace state yields EXITED
with one finalization. -/
theorem step_exit_finalized_once_witness :
    ({ task0 with ptraceEvent := PTRACE_EVENT_EXIT } : TaskState).ptraceEvent
      = PTRACE_EVENT_EXIT ∧
    (diversion_step env0 { task0 with ptraceEvent := PTRACE_EVENT_EXIT }
        RunCommand.RUN_CONTINUE 0).1 =
      StepOutcome.ok { status := .DIVERSION_EXITED, break_status := .init } none ∧
    (diversion_step env0 { task0 with ptraceEvent := PTRACE_EVENT_EXIT }
        RunCommand.RUN_CONTINUE 0).2.count Event.didKill = 1 :=
  ⟨rfl,
   (step_exit_finalized_once env0 { task0 with ptraceEvent := PTRACE_EVENT_EXIT }
     RunCommand.RUN_CONTINUE 0 (by decide) rfl (Or.inl rfl)).1,
   (step_exit_finalized_once env0 { task0 with ptraceEvent := PTRACE_EVENT_EXIT }
     RunCommand.RUN_CONTINUE 0 (by decide) rfl (Or.inl rfl)).2.1⟩

/-- C6: whenever a step returns normally, its break-status may report
"single-step completed" only when the triggering command was
single-instruction-step (for a continue command the flag is false: the
`ASSERT` aborts instead of returning on a violating classification, and
the syscall path's watchpoint-change check never sets the flag). -/
theorem singlestep_flag_only_when_singlestep (env : Env) (t : TaskState)
    (command : RunCommand) (sig : Int) (res : DiversionResult)
    (topt : Option TaskState) (tr : List Event)
    (h : diversion_step env t command sig = (StepOutcome.ok res topt, tr))
    (hss : res.break_status.singlestep_complete = true) :
    command = RunCommand.RUN_SINGLESTEP := by
  unfold diversion_step at h
  split_ifs at h with h1 h2 h3 h4 h5 h6
  · exact absurd (congrArg Prod.fst h) (by simp)
  · exact absurd (congrArg Prod.fst h) (by simp)
  · injection h with hfst hsnd
    injection hfst with hres htopt
    subst hres
    exact absurd hss (by decide)
  · injection h with hfst hsnd
    injection hfst with hres htopt
    subst hres
    exact absurd hss (by decide)
  · exact absurd (congrArg Prod.fst h) (by simp)
  · injection h with hfst hsnd
    injection hfst with hres htopt
    subst hres
    by_contra hne
    exact h6 ⟨hss, hne⟩
  · injection h with hfst hsnd
    injection hfst with hres htopt
    subst hres
    exact absurd hss (by simp [check_for_watchpoint_changes, BreakStatus.init])

/-- A trap classification reporting a completed single-step, used by
the single-step witness. -/
def bsC6 : BreakStatus :=
  { breakpoint_hit := false, watchpoints_hit := [], singlestep_complete := true }

/-- Sample environment for the single-step witness: a pending signal
whose trap classification reports a completed single-step. -/
def envC6 : Env :=
  { env0 with resumeStopSig := 5, diagnose := fun _ _ => bsC6 }

/-- C6 witness: a single-step command whose trap classification reports
a completed single-step returns normally, and the command is indeed
single-step. -/
theorem singlestep_flag_only_when_singlestep_witness :
    diversion_step envC6 task0 RunCommand.RUN_SINGLESTEP 0 =
      (StepOutcome.ok { status := .DIVERSION_CONTINUE, break_status := bsC6 }
        (some (after_resume envC6 task0)),
       resume_events task0 RunCommand.RUN_SINGLESTEP 0) ∧
    RunCommand.RUN_SINGLESTEP = RunCommand.RUN_SINGLESTEP :=
  ⟨rfl,
   singlestep_flag_only_when_singlestep envC6 task0 RunCommand.RUN_SINGLESTEP 0
     { status := .DIVERSION_CONTINUE, break_status := bsC6 }
     (some (after_resume envC6 task0))
     (resume_events task0 RunCommand.RUN_SINGLESTEP 0) rfl rfl⟩

/-- C7: the fast-forward single-step command (the only enum value
besides the two legal commands) fails fatally before any action, the
tracee not being resumed; for the two legal commands no
illegal-command failure occurs and (when the initial exit check
passes) the tracee is resumed in syscall-emulation mode — single-step
variant for the single-step command — with an unlimited tick budget,
delivering the given signal. -/
theorem illegal_command_fatal (env : Env) (t : TaskState)
    (command : RunCommand) (sig : Int)
    (hinit : env.fullyInitialized = true)
    (hpre : t.ptraceEvent ≠ PTRACE_EVENT_EXIT) :
    (command = RunCommand.RUN_SINGLESTEP_FAST_FORWARD →
      diversion_step env t command sig = (StepOutcome.fatalIllegalCommand, [])) ∧
    ((command = RunCommand.RUN_CONTINUE ∨ command = RunCommand.RUN_SINGLESTEP) →
      (diversion_step env t command sig).1 ≠ StepOutcome.fatalIllegalCommand ∧
      Event.resume (resume_mode command) TicksRequest.RESUME_UNLIMITED_TICKS sig ∈
        (diversion_step env t command sig).2) ∧
    resume_mode RunCommand.RUN_CONTINUE = ResumeMode.RESUME_SYSEMU ∧
    resume_mode RunCommand.RUN_SINGLESTEP = ResumeMode.RESUME_SYSEMU_SINGLESTEP := by
  refine ⟨?_, ?_, rfl, rfl⟩
  · intro hc
    unfold diversion_step
    rw [if_pos hc]
  · intro hlegal
    have hcmd : command ≠ RunCommand.RUN_SINGLESTEP_FAST_FORWARD := by
      rcases hlegal with h | h <;> rw [h] <;> decide
    have hmem : Event.resume (resume_mode command)
        TicksRequest.RESUME_UNLIMITED_TICKS sig ∈ resume_events t command sig := by
      rw [resume_events_eq]
      simp
    unfold diversion_step
    rw [if_neg hcmd, if_neg (by simp [hinit]), if_neg hpre]
    split_ifs with h4 h5 h6
    · exact ⟨by simp, List.mem_append_left _ hmem⟩
    · exact ⟨by simp, hmem⟩
    · exact ⟨by simp, hmem⟩
    · exact ⟨by simp, List.mem_append_left _ hmem⟩

/-- C7 witness: the fast-forward command fails fatally on the sample
task without resuming it. -/
theorem illegal_command_fatal_witness :
    env0.fullyInitialized = true ∧
    diversion_step env0 task0 RunCommand.RUN_SINGLESTEP_FAST_FORWARD 0 =
      (StepOutcome.fatalIllegalCommand, []) :=
  ⟨rfl,
   (illegal_command_fatal env0 task0 RunCommand.RUN_SINGLESTEP_FAST_FORWARD 0
     rfl (by decide)).1 rfl⟩

/-- C8: in every step that reaches the resume point, the trace begins
with the in-diversion flag write (when the preload globals are
present) and the syscall-buffer lock, strictly before the resume
action; the task observed after the resume has both flags set, and any
task returned by the step still has them set — nothing in this core
clears them. -/
theorem flags_set_before_resume (env : Env) (t : TaskState)
    (command : RunCommand) (sig : Int)
    (hcmd : command ≠ RunCommand.RUN_SINGLESTEP_FAST_FORWARD)
    (hinit : env.fullyInitialized = true)
    (hpre : t.ptraceEvent ≠ PTRACE_EVENT_EXIT) :
    (∃ tl, (diversion_step env t command sig).2 =
        ((if t.preloadGlobals = true then [Event.writeInDiversion] else []) ++
          [Event.lockSyscallbuf]) ++
        (Event.resume (resume_mode command) TicksRequest.RESUME_UNLIMITED_TICKS sig
          :: tl)) ∧
    (after_resume env t).syscallbufLocked = true ∧
    (t.preloadGlobals = true → (after_resume env t).inDiversion = true) ∧
    (∀ res t1, (diversion_step env t command sig).1 =
        StepOutcome.ok res (some t1) →
      t1.syscallbufLocked = true ∧
      (t.preloadGlobals = true → t1.inDiversion = true)) := by
  refine ⟨?_, after_resume_locked env t, after_resume_inDiversion env t, ?_⟩
  · obtain ⟨Z, hZ⟩ : ∃ Z, (diversion_step env t command sig).2 =
        resume_events t command sig ++ Z := by
      unfold diversion_step
      rw [if_neg hcmd, if_neg (by simp [hinit]), if_neg hpre]
      split_ifs with h4 h5 h6
      · exact ⟨handle_ptrace_exit_event, rfl⟩
      · exact ⟨[], (List.append_nil _).symm⟩
      · exact ⟨[], (List.append_nil _).symm⟩
      · exact ⟨(process_syscall env (after_resume env t)
          (after_resume env t).regs.original_syscallno).2, rfl⟩
    refine ⟨Z, ?_⟩
    rw [hZ, resume_events_eq]
    simp
  · intro res t1 h
    unfold diversion_step at h
    rw [if_neg hcmd, if_neg (by simp [hinit]), if_neg hpre] at h
    by_cases h4 : (after_resume env t).ptraceEvent = PTRACE_EVENT_EXIT
    · rw [if_pos h4] at h
      exact absurd h (by simp)
    rw [if_neg h4] at h
    by_cases h5 : (after_resume env t).stopSig ≠ 0
    · rw [if_pos h5] at h
      by_cases h6 : (env.diagnose (after_resume env t) command).singlestep_complete
          = true ∧ command ≠ RunCommand.RUN_SINGLESTEP
      · rw [if_pos h6] at h
        exact absurd h (by simp)
      · rw [if_neg h6] at h
        injection h with hres htopt
        injection htopt with ht1
        rw [← ht1]
        exact ⟨after_resume_locked env t, after_resume_inDiversion env t⟩
    · rw [if_neg h5] at h
      injection h with hres htopt
      injection htopt with ht1
      rw [← ht1]
      have hp := process_syscall_arch_preserves_flags
        (after_resume env t).arch env (after_resume env t)
        (after_resume env t).regs.original_syscallno
      unfold process_syscall
      constructor
      · rw [hp.1]
        exact after_resume_locked env t
      · intro hpg
        rw [hp.2]
        exact after_resume_inDiversion env t hpg

/-- C8 witness: on the sample task (preload globals present) the flags
are set by the resume point. -/
theorem flags_set_before_resume_witness :
    task0.ptraceEvent ≠ PTRACE_EVENT_EXIT ∧
    (after_resume env0 task0).syscallbufLocked = true ∧
    (after_resume env0 task0).inDiversion = true :=
  ⟨by decide,
   (flags_set_before_resume env0 task0 RunCommand.RUN_CONTINUE 0 (by decide) rfl
     (by decide)).2.1,
   (flags_set_before_resume env0 task0 RunCommand.RUN_CONTINUE 0 (by decide) rfl
     (by decide)).2.2.1 rfl⟩

/-- C9: destroying a session first forcibly terminates every task it
still owns, and only afterwards performs the emptiness check — which
then sees zero tasks and zero address spaces and fails (as a
programming-error assertion) exactly when the emulated filesystem's
live-entry count is nonzero; destroying a session with zero tasks and
zero filesystem entries succeeds trivially. -/
theorem session_teardown (s : SessionState) :
    destroy_session s =
      ((if s.emuFsSize = 0 then DtorOutcome.ok else DtorOutcome.assertFail),
       s.tasks.map DtorEvent.killTask ++
         [DtorEvent.checkEmptiness 0 0 s.emuFsSize]) ∧
    destroy_session { tasks := [], vms := [], emuFsSize := 0 } =
      (DtorOutcome.ok, [DtorEvent.checkEmptiness 0 0 0]) := by
  constructor
  · simp [destroy_session, kill_all_tasks]
  · rfl
